import Mathlib

/-!
Shallow embedding of the inbox-ai-webhook application (src/app.py): the
retrieval-augmented reply pipeline (`generate_reply`), the memory gateway
helpers, the Telegram decision state machine (`telegram_webhook`,
`handle_final_decision`), and the inbound-email / triage endpoints.

External services (OpenAI completions and embeddings, the Pinecone index,
the Telegram API, the n8n outbound webhook) are modelled as oracles in an
`Env` record; each call the code issues is recorded as an `Event` so that
ordering and absence properties can be stated on the event trace.
Fallible calls return `Except Unit`; a Python `try/except` corresponds to
pattern matching on that result.
-/

namespace InboxAI

/-- Python `a or default` where `a` is an optional string: the first operand
is taken when it is present and non-empty (truthy), otherwise the default. -/
def pyOrS (a : Option String) (dflt : String) : String :=
  match a with
  | some s => if s = "" then dflt else s
  | none => dflt

/-- Python `a or b` on two optional strings: the first operand when truthy,
otherwise the second operand verbatim. -/
def pyOrO (a b : Option String) : Option String :=
  match a with
  | some s => if s = "" then b else some s
  | none => b

/-- Python truthiness of an optional string (`None` and `""` are falsy). -/
def pyTruthyO : Option String → Bool
  | some s => s != ""
  | none => false

/-- Does `ys` start with `xs` (on character lists). -/
def leadsWith : List Char → List Char → Bool
  | [], _ => true
  | _ :: _, [] => false
  | x :: xs, y :: ys => x == y && leadsWith xs ys

/-- Does `needle` occur as a contiguous sublist of the character list. -/
def subOccurs (needle : List Char) : List Char → Bool
  | [] => leadsWith needle []
  | y :: ys => leadsWith needle (y :: ys) || subOccurs needle ys

/-- Python `needle in hay` substring test. -/
def pyIn (needle hay : String) : Bool :=
  subOccurs needle.data hay.data

/-- Python `str.strip()`: drop leading and trailing whitespace. -/
def pyStrip (s : String) : String :=
  ⟨((s.data.dropWhile Char.isWhitespace).reverse.dropWhile Char.isWhitespace).reverse⟩

/-- Python `str.lower()`: lower-case every character. -/
def pyLower (s : String) : String :=
  ⟨s.data.map Char.toLower⟩

/-- Python `str(x)` for an optional string as rendered by an f-string:
`None` prints as `"None"`. -/
def strOfOpt : Option String → String
  | some s => s
  | none => "None"

/-- Embedding vectors; their numeric content is opaque to the program. -/
abbrev EVec := List Int

/-- Metadata carried by a Pinecone match: the fields the code reads. -/
structure PineMeta where
  summary : Option String
  text : Option String
  deriving DecidableEq, Repr

/-- A single Pinecone match, in either attribute style or dict style, with
possibly missing metadata; `other` models a malformed match value. -/
inductive PineMatch where
  | attr (meta : Option PineMeta)
  | dict (meta : Option PineMeta)
  | other
  deriving DecidableEq, Repr

/-- A Pinecone query response: attribute style or dict style, with a
possibly missing match list; `other` models a malformed response. -/
inductive PineResp where
  | attr (matchList : Option (List PineMatch))
  | dict (matchList : Option (List PineMatch))
  | other
  deriving DecidableEq, Repr

/-- `_get_matches`: normalize the query response to a list of matches. -/
def getMatches : PineResp → List PineMatch
  | .attr ms => ms.getD []
  | .dict ms => ms.getD []
  | .other => []

/-- `_get_metadata`: normalize metadata access; missing or malformed
metadata becomes the empty record. -/
def getMetadata : PineMatch → PineMeta
  | .attr m => m.getD ⟨none, none⟩
  | .dict m => m.getD ⟨none, none⟩
  | .other => ⟨none, none⟩

/-- `meta.get("summary") or meta.get("text") or ""`. -/
def snippetOf (meta : PineMeta) : String :=
  pyOrS meta.summary (pyOrS meta.text "")

/-- The snippet-collection loop: take for each match the summary-or-text and keep
the non-empty ones. -/
def collectSnippets (ms : List PineMatch) : List String :=
  (ms.map (fun m => snippetOf (getMetadata m))).filter (fun t => t ≠ "")

/-- One external call issued by the program. -/
inductive Event where
  | embedCall (text : String)
  | queryCall (ns : String) (topK : Nat)
  | chatCall (msgs : List (String × String))
  | upsertCall (ns : String) (id : String)
  | sendMessage (chatId : String) (text : String)
  | n8nDispatch (toAddr : String) (subject : String) (body : String)
      (origId : Option String)
  deriving DecidableEq, Repr

/-- Metadata attached to an upserted memory record. -/
structure UpsertMeta where
  sender : String
  subject : String
  summary : String
  deriving DecidableEq, Repr

/-- The environment of external collaborators and configuration: OpenAI
embeddings and chat completions, the Pinecone index, the fresh part of the
uuid, and which transports are configured. -/
structure Env where
  embed : String → Except Unit EVec
  query : (ns : String) → EVec → (topK : Nat) → Except Unit PineResp
  chatComplete : List (String × String) → Except Unit String
  upsert : (ns : String) → (id : String) → EVec → UpsertMeta → Except Unit Unit
  uuid : String
  telegramApi : Bool
  n8nUrl : Bool
  ownerChatId : Option String

/-- `derive_namespace(sender)`: `(sender or "unknown").strip().lower()`,
falling back to `"unknown"` when the result is empty. -/
def derive_namespace (sender : Option String) : String :=
  let s := pyLower (pyStrip (pyOrS sender "unknown"))
  if s = "" then "unknown" else s

/-- The `email_text` block fed to retrieval and the prompts. -/
def emailTextOf (sender subject body : String) : String :=
  "From: " ++ sender ++ "\nSubject: " ++ subject ++ "\n\n" ++ body

/-- The fixed system prompt of `generate_reply`. -/
def system_prompt : String :=
  "You are an executive assistant. You write short, clear, polite email replies.\n" ++
  "Use the provided past context only if it is relevant. " ++
  "Never mention \x27memory\x27 or \x27Pinecone\x27 to the user.\n"

/-- The `decision_block` built when a decision text is present. -/
def decisionBlockOf (decision_text : String) : String :=
  "\nYour explicit decision / instructions:\n----------------\n" ++
  decision_text ++ "\n"

/-- The decision block as computed from the optional argument: empty when
the argument is `None` or the empty string (Python truthiness). -/
def decisionBlockOpt (decision_text : Option String) : String :=
  match decision_text with
  | some d => if d = "" then "" else decisionBlockOf d
  | none => ""

/-- The user prompt of `generate_reply`. -/
def userPromptOf (email_text memory_snippets decision_block : String) : String :=
  "\nIncoming email:\n----------------\n" ++ email_text ++
  "\n\nRelevant past context (may be empty):\n----------------\n" ++
  memory_snippets ++ "\n" ++ decision_block ++
  "\n\nTask:\n----------------\n" ++
  "Write a short, professional reply (3–6 sentences).\n" ++
  "Be concrete and helpful. Avoid fluff.\n" ++
  "Follow the decision/instructions exactly if provided.\n" ++
  "Sign off with \x27Best,\x27 and no placeholder brackets.\n" ++
  "Reply in plain text (no markdown).\n"

/-- The retrieval `try` block of `generate_reply`: embed the email text,
query the top 3 records in the namespace of the sender, and join the non-empty
snippets; any failure degrades to the empty string. Returns the events of
the calls issued together with the joined `memory_snippets`. -/
def retrieveStep (env : Env) (ns email_text : String) : List Event × String :=
  match env.embed email_text with
  | .error _ => ([.embedCall email_text], "")
  | .ok v =>
    match env.query ns v 3 with
    | .error _ => ([.embedCall email_text, .queryCall ns 3], "")
    | .ok resp =>
        ([.embedCall email_text, .queryCall ns 3],
         String.intercalate "\n\n---\n\n" (collectSnippets (getMatches resp)))

/-- The exact message list passed to the chat completion that composes the
reply, as a function of the environment and the arguments of the call. -/
def replyMessages (env : Env) (subject body sender : String)
    (decision_text : Option String) : List (String × String) :=
  let sender1 := pyOrS (some sender) "unknown"
  let ns := derive_namespace (some sender1)
  let email_text := emailTextOf sender1 subject body
  let memory_snippets := (retrieveStep env ns email_text).2
  [("system", system_prompt),
   ("user", userPromptOf email_text memory_snippets (decisionBlockOpt decision_text))]

/-- The summarization prompt of the write-back step. -/
def summaryPromptOf (email_text : String) : String :=
  "Summarise this email in 1–2 sentences for future context:\n\n" ++ email_text

/-- The write-back `try` block of `generate_reply`: summarize the email,
embed the summary, and upsert the record into the namespace of the sender. Every
failure is swallowed; only the events of the calls issued are returned. -/
def writeBackStep (env : Env) (ns sender subject email_text : String) : List Event :=
  let smsgs := [("user", summaryPromptOf email_text)]
  match env.chatComplete smsgs with
  | .error _ => [.chatCall smsgs]
  | .ok s =>
    let summary := pyStrip s
    match env.embed summary with
    | .error _ => [.chatCall smsgs, .embedCall summary]
    | .ok v =>
      let vid := sender ++ "-" ++ env.uuid
      match env.upsert ns vid v ⟨sender, subject, summary⟩ with
      | .error _ => [.chatCall smsgs, .embedCall summary, .upsertCall ns vid]
      | .ok _ => [.chatCall smsgs, .embedCall summary, .upsertCall ns vid]

/-- `generate_reply(subject, body, sender, decision_text)`: default the
arguments, retrieve memory (failures degrade to no context), compose the
reply via one chat completion (failure propagates), then attempt the
write-back (failures swallowed), and return the reply text. The first
component is the trace of external calls issued. -/
def generate_reply (env : Env) (subject body sender : String)
    (decision_text : Option String) : List Event × Except Unit String :=
  let sender1 := pyOrS (some sender) "unknown"
  let ns := derive_namespace (some sender1)
  let email_text := emailTextOf sender1 subject body
  let ev1 := (retrieveStep env ns email_text).1
  let msgs := replyMessages env subject body sender decision_text
  match env.chatComplete msgs with
  | .error e => (ev1 ++ [.chatCall msgs], .error e)
  | .ok reply_text =>
      (ev1 ++ [.chatCall msgs] ++ writeBackStep env ns sender1 subject email_text,
       .ok reply_text)

/-- The email record built by `/incoming-email` and stored in a session.
All keys the handler writes are present; `message_id` may be `None`, and
`proposed_time` is read with `.get`, so it is optional. -/
structure EmailRec where
  from_email : String
  subject : String
  body_text : String
  message_id : Option String
  proposed_time : Option String
  deriving DecidableEq, Repr

/-- One entry of `pending_requests`: the email and the state tag. -/
structure Session where
  email : EmailRec
  state : String
  deriving DecidableEq, Repr

/-- The decision dict passed to `handle_final_decision`. -/
structure Decision where
  type : String
  time : Option String
  deriving DecidableEq, Repr

/-- The decision-instruction sentence built from the decision. -/
def decisionTextOf (d : Decision) : String :=
  if d.type = "accept" then
    "I confirm that I am available for this meeting at the proposed time."
  else if d.type = "accept_with_time" then
    "I am available for this meeting at: " ++ strOfOpt d.time ++ "."
  else if d.type = "reschedule" then
    "I am not available at the proposed time. " ++
    "Please request to reschedule the meeting to: " ++ strOfOpt d.time ++ "."
  else if d.type = "decline" then
    "I am not available and would like to decline this meeting."
  else ""

/-- `telegram_send_message`: posts to the Telegram API when configured,
otherwise returns without doing anything. -/
def telegram_send_message (env : Env) (chat_id text : String) : List Event :=
  if env.telegramApi then [.sendMessage chat_id text] else []

/-- `send_to_n8n`: posts the outbound-email payload to the n8n webhook when
configured, otherwise returns without doing anything. -/
def send_to_n8n (env : Env) (email : EmailRec) (final_body : String) : List Event :=
  if env.n8nUrl then
    [.n8nDispatch email.from_email ("Re: " ++ email.subject) final_body email.message_id]
  else []

/-- The fixed authorization notice appended to every composed reply. -/
def authNotice : String :=
  "\n\n---\n" ++
  "This response was generated with the help of AI under my authorization and supervision."

/-- `handle_final_decision(chat_id, session, decision)`: build the decision
instruction, generate the reply (failure propagates), then notify the
operator and dispatch the outbound email. -/
def handle_final_decision (env : Env) (chat_id : String) (session : Session)
    (decision : Decision) : List Event × Except Unit Unit :=
  let email := session.email
  let decision_text := decisionTextOf decision
  match generate_reply env email.subject email.body_text email.from_email
      (some decision_text) with
  | (evs, .error e) => (evs, .error e)
  | (evs, .ok reply_text) =>
    let final_body := reply_text ++ authNotice
    (evs ++ telegram_send_message env chat_id
        ("Got it. I\x27m sending this reply:\n\n" ++ final_body)
      ++ send_to_n8n env email final_body, .ok ())

/-- The `pending_requests` mapping, conversation id to session. -/
abbrev Store := List (String × Session)

/-- Lookup in the session store. -/
def sget (st : Store) (k : String) : Option Session :=
  List.lookup k st

/-- `pending_requests[k] = v` (overwrites any existing entry). -/
def sput (st : Store) (k : String) (v : Session) : Store :=
  (k, v) :: st.filter (fun p => p.1 ≠ k)

/-- `pending_requests.pop(k, None)`. -/
def sdel (st : Store) (k : String) : Store :=
  st.filter (fun p => p.1 ≠ k)

/-- A finalize branch of the webhook: set the session state to the
finalizing tag (an in-place mutation of the stored session), call
`handle_final_decision`, and pop the session only when it succeeded; an
exception propagates and leaves the mutated store behind. -/
def finalizeBranch (env : Env) (st : Store) (chat_id : String) (sess : Session)
    (newState : String) (d : Decision) : List Event × Store × Except Unit Unit :=
  let session2 := { sess with state := newState }
  let st2 := sput st chat_id session2
  match handle_final_decision env chat_id session2 d with
  | (evs, .error e) => (evs, st2, .error e)
  | (evs, .ok _) => (evs, sdel st2 chat_id, .ok ())

/-- The reply of the `/start` command. -/
def startReplyOf (chat_id : String) : String :=
  "Hi! I will help manage your meeting emails.\n\n" ++
  "Your chat id is: " ++ chat_id ++ "\n\n" ++
  "Set this as TELEGRAM_OWNER_CHAT_ID in Render."

/-- The notice sent when no session is active for the conversation. -/
def noActiveRequestText : String :=
  "I don\x27t have any active meeting request right now. " ++
  "Wait for a new email to arrive."

/-- `telegram_webhook` on a well-formed chat message (the wire payload
already parsed to the conversation id and the raw text): the `/start`
command, the no-active-session notice, and the decision state machine.
Returns the trace of calls, the updated store, and whether an exception
propagated out of the handler. -/
def telegram_webhook (env : Env) (st : Store) (chat_id text_raw : String) :
    List Event × Store × Except Unit Unit :=
  let text := pyLower (pyStrip text_raw)
  if text = "/start" then
    (telegram_send_message env chat_id (startReplyOf chat_id), st, .ok ())
  else
    match sget st chat_id with
    | none => (telegram_send_message env chat_id noActiveRequestText, st, .ok ())
    | some session =>
      if session.state = "awaiting_availability" then
        if pyIn "yes" text then
          if !(pyTruthyO session.email.proposed_time) then
            (telegram_send_message env chat_id "Great! What time are you available?",
             sput st chat_id { session with state := "awaiting_time" }, .ok ())
          else
            finalizeBranch env st chat_id session "finalizing_accept" ⟨"accept", none⟩
        else if pyIn "no" text then
          (telegram_send_message env chat_id
            ("Okay, you\x27re not available. Should I ask to reschedule? (yes/no)"),
           sput st chat_id { session with state := "awaiting_reschedule_confirm" }, .ok ())
        else
          (telegram_send_message env chat_id
            "Please reply \"yes\" if you are available, or \"no\" if you are not.",
           st, .ok ())
      else if session.state = "awaiting_time" then
        finalizeBranch env st chat_id session "finalizing_accept"
          ⟨"accept_with_time", some (pyStrip text_raw)⟩
      else if session.state = "awaiting_reschedule_confirm" then
        if pyIn "yes" text then
          (telegram_send_message env chat_id "What time would you like me to propose?",
           sput st chat_id { session with state := "awaiting_reschedule_time" }, .ok ())
        else if pyIn "no" text then
          finalizeBranch env st chat_id session "finalizing_decline" ⟨"decline", none⟩
        else
          (telegram_send_message env chat_id "Please answer \"yes\" or \"no\".", st, .ok ())
      else if session.state = "awaiting_reschedule_time" then
        finalizeBranch env st chat_id session "finalizing_reschedule"
          ⟨"reschedule", some (pyStrip text_raw)⟩
      else
        ([], st, .ok ())

/-- The JSON payload of `/incoming-email`, with each key the handler reads
possibly absent. `fromKey` is the `"from"` key and `bodyKey` the `"body"`
key of the payload. -/
structure InPayload where
  from_email : Option String
  fromKey : Option String
  subject : Option String
  body_text : Option String
  bodyKey : Option String
  message_id : Option String
  messageId : Option String
  deriving DecidableEq, Repr

/-- The email dict built by `/incoming-email` from the payload. -/
def buildInEmail (p : InPayload) : EmailRec :=
  { from_email := pyOrS (pyOrO p.from_email p.fromKey) ""
    subject := pyOrS p.subject ""
    body_text := pyOrS (pyOrO p.body_text p.bodyKey) ""
    message_id := pyOrO p.message_id p.messageId
    proposed_time := none }

/-- The operator prompt sent for a new inbound meeting email. -/
def incomingPromptOf (email : EmailRec) : String :=
  "New meeting-related email:\n\n" ++
  "From: " ++ email.from_email ++ "\n" ++
  "Subject: " ++ email.subject ++ "\n\n" ++
  (email.body_text.take 400) ++ "\n\n" ++
  "Are you available for this meeting? (yes/no)"

/-- `/incoming-email`: build the email with defaults, bail out when no
owner chat id is configured, otherwise store a fresh session in state
`awaiting_availability` and prompt the operator. The boolean is the `ok`
flag of the response. -/
def incoming_email (env : Env) (st : Store) (p : InPayload) :
    List Event × Store × Bool :=
  let email := buildInEmail p
  match env.ownerChatId with
  | none => ([], st, false)
  | some chat_id =>
    if chat_id = "" then ([], st, false)
    else
      (telegram_send_message env chat_id (incomingPromptOf email),
       sput st chat_id ⟨email, "awaiting_availability"⟩, true)

/-- The JSON payload of `/triage`. -/
structure TriagePayload where
  subject : Option String
  body_text : Option String
  from_email : Option String
  decision : Option String
  deriving DecidableEq, Repr

/-- `/triage`: extract the fields with their defaults and call
`generate_reply`. -/
def triage (env : Env) (p : TriagePayload) : List Event × Except Unit String :=
  let subject := pyOrS p.subject ""
  let body := pyOrS p.body_text ""
  let sender := pyOrS p.from_email "unknown"
  let decision := match p.decision with
    | some d => if d = "" then none else some d
    | none => none
  generate_reply env subject body sender decision

/-- Is the event a Telegram chat message. -/
def isSendEvent : Event → Bool
  | .sendMessage _ _ => true
  | _ => false

/-- Is the event an outbound-email dispatch to n8n. -/
def isDispatchEvent : Event → Bool
  | .n8nDispatch _ _ _ _ => true
  | _ => false

/-- Is the event a memory upsert. -/
def isUpsertEvent : Event → Bool
  | .upsertCall _ _ => true
  | _ => false

/-- Events that can arise from the retrieval step. -/
def isRetrievalEvent : Event → Bool
  | .embedCall _ => true
  | .queryCall _ _ => true
  | _ => false

/-- Events that can arise from the summary write-back step: the one-message
summarization completion, the summary embedding, and the upsert. -/
def isWriteBackEvent : Event → Bool
  | .chatCall msgs => msgs.length == 1
  | .embedCall _ => true
  | .upsertCall _ _ => true
  | _ => false

/-- Does the webhook input trigger a finalize for this session: the four
terminal branches of the state machine. -/
def finalizeTriggered (sess : Session) (text : String) : Bool :=
  (sess.state == "awaiting_availability" && pyIn "yes" text
    && pyTruthyO sess.email.proposed_time)
  || sess.state == "awaiting_time"
  || (sess.state == "awaiting_reschedule_confirm" && !(pyIn "yes" text)
    && pyIn "no" text)
  || sess.state == "awaiting_reschedule_time"

/-- A fully healthy environment: every external call succeeds. -/
def okEnv : Env :=
  { embed := fun _ => .ok [1]
    query := fun _ _ _ => .ok .other
    chatComplete := fun _ => .ok "OK-REPLY"
    upsert := fun _ _ _ _ => .ok ()
    uuid := "u1"
    telegramApi := true
    n8nUrl := true
    ownerChatId := some "7" }

/-- An environment whose completion service always fails. -/
def failChatEnv : Env := { okEnv with chatComplete := fun _ => .error () }

/-- An environment whose embedding service always fails. -/
def failEmbedEnv : Env := { okEnv with embed := fun _ => .error () }

/-- An environment whose vector-store query always fails. -/
def failQueryEnv : Env := { okEnv with query := fun _ _ _ => .error () }

/-- An environment whose vector-store upsert always fails. -/
def failUpsertEnv : Env := { okEnv with upsert := fun _ _ _ _ => .error () }

/-- An environment where the whole write-back path fails: one-message
(summarization) completions and upserts fail, while two-message
(composition) completions succeed. -/
def wbFailEnv : Env :=
  { okEnv with
    chatComplete := fun msgs => if msgs.length = 2 then .ok "OK-REPLY" else .error ()
    upsert := fun _ _ _ _ => .error () }

/-- A sample inbound email. -/
def demoEmail : EmailRec :=
  { from_email := "bob@x.com", subject := "Sync", body_text := "Are you free Tuesday?",
    message_id := some "m1", proposed_time := none }

/-- The same email with a known proposed time. -/
def demoEmailTimed : EmailRec := { demoEmail with proposed_time := some "Tue 3pm" }

/-- A freshly created session for the sample email. -/
def demoSession : Session := { email := demoEmail, state := "awaiting_availability" }

/-- A session already waiting for a time from the operator. -/
def demoSessionTime : Session := { email := demoEmail, state := "awaiting_time" }

/-- The inbound payload for the sample email. -/
def payloadBob : InPayload :=
  { from_email := some "bob@x.com", fromKey := none, subject := some "Sync",
    body_text := some "Are you free Tuesday?", bodyKey := none,
    message_id := some "m1", messageId := none }

/-- An inbound payload with every field missing. -/
def emptyInPayload : InPayload :=
  { from_email := none, fromKey := none, subject := none,
    body_text := none, bodyKey := none, message_id := none, messageId := none }

/-- A triage payload with every field missing. -/
def emptyTriagePayload : TriagePayload :=
  { subject := none, body_text := none, from_email := none, decision := none }

theorem pyLower_eq_empty {s : String} (h : pyLower s = "") : s = "" := by
  have hd : s.data.map Char.toLower = [] := congrArg String.data h
  exact String.ext (List.map_eq_nil_iff.mp hd)

theorem sget_sdel (st : Store) (k : String) : sget (sdel st k) k = none := by
  unfold sget sdel
  induction st with
  | nil => rfl
  | cons p rest ih =>
    by_cases h : p.1 = k
    · simpa [List.filter, h] using ih
    · have hk : (k == p.1) = false := beq_eq_false_iff_ne.mpr (Ne.symm h)
      simpa [List.filter, h, List.lookup, hk] using ih

theorem sget_sput (st : Store) (k : String) (v : Session) :
    sget (sput st k v) k = some v := by
  simp [sget, sput, List.lookup]

theorem retrieveStep_events (env : Env) (ns etext : String) :
    ∀ e ∈ (retrieveStep env ns etext).1, isRetrievalEvent e = true := by
  simp only [retrieveStep]
  cases h1 : env.embed etext with
  | error e1 => simp [isRetrievalEvent, h1]
  | ok v =>
    cases h2 : env.query ns v 3 with
    | error e2 => simp [isRetrievalEvent, h1, h2]
    | ok resp => simp [isRetrievalEvent, h1, h2]

theorem writeBackStep_events (env : Env) (ns sender subject etext : String) :
    ∀ e ∈ writeBackStep env ns sender subject etext, isWriteBackEvent e = true := by
  simp only [writeBackStep]
  cases h1 : env.chatComplete [("user", summaryPromptOf etext)] with
  | error e1 => simp [isWriteBackEvent, h1]
  | ok s =>
    cases h2 : env.embed (pyStrip s) with
    | error e2 => simp [isWriteBackEvent, h1, h2]
    | ok v =>
      cases h3 : env.upsert ns (sender ++ "-" ++ env.uuid) v ⟨sender, subject, pyStrip s⟩ with
      | error e3 => simp [isWriteBackEvent, h1, h2, h3]
      | ok u => simp [isWriteBackEvent, h1, h2, h3]

theorem writeBackStep_ne_nil (env : Env) (ns sender subject etext : String) :
    writeBackStep env ns sender subject etext ≠ [] := by
  simp only [writeBackStep]
  cases h1 : env.chatComplete [("user", summaryPromptOf etext)] with
  | error e1 => simp [h1]
  | ok s =>
    cases h2 : env.embed (pyStrip s) with
    | error e2 => simp [h1, h2]
    | ok v =>
      cases h3 : env.upsert ns (sender ++ "-" ++ env.uuid) v ⟨sender, subject, pyStrip s⟩ with
      | error e3 => simp [h1, h2, h3]
      | ok u => simp [h1, h2, h3]

theorem generate_reply_ok_trace (env : Env) (subject body sender : String)
    (dt : Option String) (r : String)
    (h : (generate_reply env subject body sender dt).2 = .ok r) :
    generate_reply env subject body sender dt
      = ((retrieveStep env (derive_namespace (some (pyOrS (some sender) "unknown")))
            (emailTextOf (pyOrS (some sender) "unknown") subject body)).1
          ++ [.chatCall (replyMessages env subject body sender dt)]
          ++ writeBackStep env (derive_namespace (some (pyOrS (some sender) "unknown")))
              (pyOrS (some sender) "unknown") subject
              (emailTextOf (pyOrS (some sender) "unknown") subject body),
         .ok r) := by
  simp only [generate_reply] at h ⊢
  cases hc : env.chatComplete (replyMessages env subject body sender dt) with
  | error e => simp [hc] at h
  | ok reply =>
    simp only [hc] at h ⊢
    simp at h
    subst h
    rfl

theorem generate_reply_error_trace (env : Env) (subject body sender : String)
    (dt : Option String)
    (h : (generate_reply env subject body sender dt).2 = .error ()) :
    generate_reply env subject body sender dt
      = ((retrieveStep env (derive_namespace (some (pyOrS (some sender) "unknown")))
            (emailTextOf (pyOrS (some sender) "unknown") subject body)).1
          ++ [.chatCall (replyMessages env subject body sender dt)],
         .error ()) := by
  simp only [generate_reply] at h ⊢
  cases hc : env.chatComplete (replyMessages env subject body sender dt) with
  | error e => simp [hc]
  | ok reply => simp [hc] at h

/-- C9: `derive_namespace` is a pure function with
`derive_namespace " Alice@Example.com " = "alice@example.com"`,
`derive_namespace None = "unknown"`, `derive_namespace "" = "unknown"`, and
in general the namespace is the sender trimmed and lower-cased, with an
empty or whitespace-only or missing sender mapped to `"unknown"`. -/
theorem c9_derive_namespace :
    derive_namespace (some " Alice@Example.com ") = "alice@example.com" ∧
    derive_namespace none = "unknown" ∧
    derive_namespace (some "") = "unknown" ∧
    ∀ s : String, derive_namespace (some s) =
      if pyStrip s = "" then "unknown" else pyLower (pyStrip s) := by
  refine ⟨by decide, by decide, by decide, ?_⟩
  intro s
  by_cases hs : s = ""
  · subst hs; decide
  · simp only [derive_namespace, pyOrS, hs, ite_false]
    by_cases ht : pyStrip s = ""
    · rw [ht]; decide
    · have htl : pyLower (pyStrip s) ≠ "" := fun hh => ht (pyLower_eq_empty hh)
      rw [if_neg htl, if_neg ht]

/-- C1 counterexample: in a fully successful finalize run on a concrete
session, the memory upsert (the summary write) occurs strictly before the
operator notification, so the claimed order (notification and dispatch
before the summary write) is false on the code. -/
theorem c1_counterexample :
    ((handle_final_decision okEnv "7" demoSession ⟨"accept", none⟩).1.findIdx isUpsertEvent
      < (handle_final_decision okEnv "7" demoSession ⟨"accept", none⟩).1.findIdx isSendEvent)
    ∧ (handle_final_decision okEnv "7" demoSession ⟨"accept", none⟩).1.any isUpsertEvent = true
    ∧ (handle_final_decision okEnv "7" demoSession ⟨"accept", none⟩).1.any isSendEvent = true
    ∧ (handle_final_decision okEnv "7" demoSession ⟨"accept", none⟩).1.any isDispatchEvent
      = true := by
  decide

/-- C1 (amended): within one successful finalize sequence (with the
Telegram and n8n transports configured), reply composition strictly
precedes the synchronous summary write-back, which strictly precedes the
operator notification, which strictly precedes the outbound email
dispatch; the write-back is performed inline before notification and
dispatch, not scheduled after them. -/
theorem c1_compose_then_writeback_then_notify_then_dispatch (env : Env)
    (chat_id : String) (sess : Session) (d : Decision)
    (htel : env.telegramApi = true) (hn8n : env.n8nUrl = true)
    (hok : (handle_final_decision env chat_id sess d).2 = .ok ()) :
    ∃ evR evW sendText dispatchBody,
      (handle_final_decision env chat_id sess d).1
        = evR ++ [Event.chatCall (replyMessages env sess.email.subject
              sess.email.body_text sess.email.from_email (some (decisionTextOf d)))]
          ++ evW
          ++ [Event.sendMessage chat_id sendText,
              Event.n8nDispatch sess.email.from_email ("Re: " ++ sess.email.subject)
                dispatchBody sess.email.message_id] ∧
      (∀ e ∈ evR, isRetrievalEvent e = true) ∧
      (∀ e ∈ evW, isWriteBackEvent e = true) ∧ evW ≠ [] := by
  simp only [handle_final_decision] at hok ⊢
  cases hg : generate_reply env sess.email.subject sess.email.body_text
      sess.email.from_email (some (decisionTextOf d)) with
  | mk evs r =>
    cases r with
    | error e => simp [hg] at hok
    | ok reply =>
      have h2 : (generate_reply env sess.email.subject sess.email.body_text
          sess.email.from_email (some (decisionTextOf d))).2 = .ok reply := by
        rw [hg]
      have h3 := generate_reply_ok_trace env sess.email.subject sess.email.body_text
        sess.email.from_email (some (decisionTextOf d)) reply h2
      have hevs : evs = (retrieveStep env
            (derive_namespace (some (pyOrS (some sess.email.from_email) "unknown")))
            (emailTextOf (pyOrS (some sess.email.from_email) "unknown")
              sess.email.subject sess.email.body_text)).1
          ++ [.chatCall (replyMessages env sess.email.subject sess.email.body_text
                sess.email.from_email (some (decisionTextOf d)))]
          ++ writeBackStep env
              (derive_namespace (some (pyOrS (some sess.email.from_email) "unknown")))
              (pyOrS (some sess.email.from_email) "unknown") sess.email.subject
              (emailTextOf (pyOrS (some sess.email.from_email) "unknown")
                sess.email.subject sess.email.body_text) := by
        rw [hg] at h3
        exact congrArg Prod.fst h3
      refine ⟨(retrieveStep env
            (derive_namespace (some (pyOrS (some sess.email.from_email) "unknown")))
            (emailTextOf (pyOrS (some sess.email.from_email) "unknown")
              sess.email.subject sess.email.body_text)).1,
          writeBackStep env
              (derive_namespace (some (pyOrS (some sess.email.from_email) "unknown")))
              (pyOrS (some sess.email.from_email) "unknown") sess.email.subject
              (emailTextOf (pyOrS (some sess.email.from_email) "unknown")
                sess.email.subject sess.email.body_text),
          "Got it. I\x27m sending this reply:\n\n" ++ (reply ++ authNotice),
          reply ++ authNotice, ?_, ?_, ?_, ?_⟩
      · simp only [hg, hevs, telegram_send_message, send_to_n8n, htel, hn8n, if_true]
        simp [List.append_assoc]
      · exact retrieveStep_events env _ _
      · exact writeBackStep_events env _ _ _ _
      · exact writeBackStep_ne_nil env _ _ _ _

theorem retrieveStep_congr (e1 e2 : Env) (ns etext : String)
    (hembed : e1.embed etext = e2.embed etext)
    (hquery : ∀ v k, e1.query ns v k = e2.query ns v k) :
    retrieveStep e1 ns etext = retrieveStep e2 ns etext := by
  simp only [retrieveStep, hembed]
  cases h : e2.embed etext with
  | error e => rfl
  | ok v =>
    have hq := hquery v 3
    simp [hq]

/-- C3: the reply returned by `generate_reply` is unchanged between two
environments that agree on the critical path (the email-text embedding,
the namespace query, and two-message chat completions) but may differ
arbitrarily — including always failing — on the write-back path (the
one-message summarization completion, the summary embedding, and the
upsert); no write-back failure surfaces to the caller. -/
theorem c3_writeback_isolation (e1 e2 : Env) (subject body sender : String)
    (dt : Option String)
    (hembed : e1.embed (emailTextOf (pyOrS (some sender) "unknown") subject body)
            = e2.embed (emailTextOf (pyOrS (some sender) "unknown") subject body))
    (hquery : ∀ v k,
        e1.query (derive_namespace (some (pyOrS (some sender) "unknown"))) v k
      = e2.query (derive_namespace (some (pyOrS (some sender) "unknown"))) v k)
    (hchat : ∀ sys usr,
        e1.chatComplete [("system", sys), ("user", usr)]
      = e2.chatComplete [("system", sys), ("user", usr)]) :
    (generate_reply e1 subject body sender dt).2
      = (generate_reply e2 subject body sender dt).2 := by
  have hr := retrieveStep_congr e1 e2
    (derive_namespace (some (pyOrS (some sender) "unknown")))
    (emailTextOf (pyOrS (some sender) "unknown") subject body) hembed hquery
  have hm : replyMessages e1 subject body sender dt
      = replyMessages e2 subject body sender dt := by
    simp only [replyMessages, hr]
  have hcc : e1.chatComplete (replyMessages e1 subject body sender dt)
      = e2.chatComplete (replyMessages e2 subject body sender dt) := by
    rw [hm]
    exact hchat _ _
  simp only [generate_reply]
  rw [hcc]
  cases hc : e2.chatComplete (replyMessages e2 subject body sender dt) with
  | error e => simp [hc]
  | ok r => simp [hc]

/-- C3 witness: with the upsert always failing and the summarization
completion always failing, the reply equals the one in the fully healthy
environment. -/
theorem c3_witness :
    (wbFailEnv.embed (emailTextOf (pyOrS (some "bob@x.com") "unknown") "Sync"
        "Are you free Tuesday?")
      = okEnv.embed (emailTextOf (pyOrS (some "bob@x.com") "unknown") "Sync"
        "Are you free Tuesday?")) ∧
    (∀ v k, wbFailEnv.query (derive_namespace (some (pyOrS (some "bob@x.com") "unknown"))) v k
          = okEnv.query (derive_namespace (some (pyOrS (some "bob@x.com") "unknown"))) v k) ∧
    (∀ sys usr, wbFailEnv.chatComplete [("system", sys), ("user", usr)]
              = okEnv.chatComplete [("system", sys), ("user", usr)]) ∧
    (generate_reply wbFailEnv "Sync" "Are you free Tuesday?" "bob@x.com" none).2
      = (generate_reply okEnv "Sync" "Are you free Tuesday?" "bob@x.com" none).2 :=
  ⟨rfl, fun _ _ => rfl, fun _ _ => rfl,
   c3_writeback_isolation wbFailEnv okEnv "Sync" "Are you free Tuesday?" "bob@x.com"
     none rfl (fun _ _ => rfl) (fun _ _ => rfl)⟩

/-- C4: if the embedding of the email text or the vector-store query
raises, retrieval returns the empty memory context (by construction no
error escapes it), the composition prompt is built with the empty memory
context, and the composition call is still issued. -/
theorem c4_retrieval_failure_degrades (env : Env) (subject body sender : String)
    (dt : Option String)
    (hfail : env.embed (emailTextOf (pyOrS (some sender) "unknown") subject body)
        = .error ()
      ∨ ∃ v, env.embed (emailTextOf (pyOrS (some sender) "unknown") subject body) = .ok v
          ∧ env.query (derive_namespace (some (pyOrS (some sender) "unknown"))) v 3
            = .error ()) :
    (retrieveStep env (derive_namespace (some (pyOrS (some sender) "unknown")))
        (emailTextOf (pyOrS (some sender) "unknown") subject body)).2 = "" ∧
    replyMessages env subject body sender dt
      = [("system", system_prompt),
         ("user", userPromptOf (emailTextOf (pyOrS (some sender) "unknown") subject body)
            "" (decisionBlockOpt dt))] ∧
    Event.chatCall (replyMessages env subject body sender dt)
      ∈ (generate_reply env subject body sender dt).1 := by
  have hretr : (retrieveStep env (derive_namespace (some (pyOrS (some sender) "unknown")))
      (emailTextOf (pyOrS (some sender) "unknown") subject body)).2 = "" := by
    rcases hfail with h | ⟨v, hv, hq⟩
    · simp [retrieveStep, h]
    · simp [retrieveStep, hv, hq]
  refine ⟨hretr, ?_, ?_⟩
  · simp only [replyMessages, hretr]
  · simp only [generate_reply]
    cases hc : env.chatComplete (replyMessages env subject body sender dt) with
    | error e => simp [hc]
    | ok r => simp [hc]

/-- C4 witness: with the embedding service always failing, retrieval
degrades to the empty context and composition still proceeds. -/
theorem c4_witness :
    (failEmbedEnv.embed (emailTextOf (pyOrS (some "bob@x.com") "unknown") "Sync"
        "Are you free Tuesday?") = .error ()
      ∨ ∃ v, failEmbedEnv.embed (emailTextOf (pyOrS (some "bob@x.com") "unknown") "Sync"
          "Are you free Tuesday?") = .ok v
        ∧ failEmbedEnv.query (derive_namespace (some (pyOrS (some "bob@x.com") "unknown"))) v 3
          = .error ()) ∧
    ((retrieveStep failEmbedEnv (derive_namespace (some (pyOrS (some "bob@x.com") "unknown")))
        (emailTextOf (pyOrS (some "bob@x.com") "unknown") "Sync" "Are you free Tuesday?")).2
        = "" ∧
     replyMessages failEmbedEnv "Sync" "Are you free Tuesday?" "bob@x.com" none
       = [("system", system_prompt),
          ("user", userPromptOf (emailTextOf (pyOrS (some "bob@x.com") "unknown") "Sync"
             "Are you free Tuesday?") "" (decisionBlockOpt none))] ∧
     Event.chatCall (replyMessages failEmbedEnv "Sync" "Are you free Tuesday?" "bob@x.com" none)
       ∈ (generate_reply failEmbedEnv "Sync" "Are you free Tuesday?" "bob@x.com" none).1) :=
  ⟨Or.inl rfl,
   c4_retrieval_failure_degrades failEmbedEnv "Sync" "Are you free Tuesday?" "bob@x.com"
     none (Or.inl rfl)⟩

/-- C5: if the composition completion fails during finalize, the whole
finalize fails (the error propagates) and its trace contains neither an
operator notification nor an outbound email dispatch. -/
theorem c5_compose_failure_aborts_finalize (env : Env) (chat_id : String)
    (sess : Session) (d : Decision)
    (hfail : env.chatComplete (replyMessages env sess.email.subject sess.email.body_text
        sess.email.from_email (some (decisionTextOf d))) = .error ()) :
    (handle_final_decision env chat_id sess d).2 = .error () ∧
    ∀ e ∈ (handle_final_decision env chat_id sess d).1,
      isSendEvent e = false ∧ isDispatchEvent e = false := by
  have hg2 : (generate_reply env sess.email.subject sess.email.body_text
      sess.email.from_email (some (decisionTextOf d))).2 = .error () := by
    simp only [generate_reply, hfail]
  have hgt := generate_reply_error_trace env sess.email.subject sess.email.body_text
    sess.email.from_email (some (decisionTextOf d)) hg2
  constructor
  · simp only [handle_final_decision, hgt]
  · simp only [handle_final_decision, hgt]
    intro e he
    rcases List.mem_append.mp he with h1 | h2
    · have hre := retrieveStep_events env
        (derive_namespace (some (pyOrS (some sess.email.from_email) "unknown")))
        (emailTextOf (pyOrS (some sess.email.from_email) "unknown")
          sess.email.subject sess.email.body_text) e h1
      cases e <;> simp_all [isRetrievalEvent, isSendEvent, isDispatchEvent]
    · rw [List.mem_singleton] at h2
      subst h2
      exact ⟨rfl, rfl⟩

/-- C5 witness: with the completion service always failing, a concrete
finalize fails as a whole and performs no notification or dispatch. -/
theorem c5_witness :
    (failChatEnv.chatComplete (replyMessages failChatEnv demoSession.email.subject
        demoSession.email.body_text demoSession.email.from_email
        (some (decisionTextOf ⟨"accept", none⟩))) = .error ()) ∧
    ((handle_final_decision failChatEnv "7" demoSession ⟨"accept", none⟩).2 = .error () ∧
     ∀ e ∈ (handle_final_decision failChatEnv "7" demoSession ⟨"accept", none⟩).1,
       isSendEvent e = false ∧ isDispatchEvent e = false) :=
  ⟨rfl, c5_compose_failure_aborts_finalize failChatEnv "7" demoSession ⟨"accept", none⟩ rfl⟩

/-- C1 witness for the amended ordering, at a concrete healthy run. -/
theorem c1_order_witness :
    okEnv.telegramApi = true ∧ okEnv.n8nUrl = true ∧
    (handle_final_decision okEnv "7" demoSession ⟨"accept", none⟩).2 = .ok () ∧
    (∃ evR evW sendText dispatchBody,
      (handle_final_decision okEnv "7" demoSession ⟨"accept", none⟩).1
        = evR ++ [Event.chatCall (replyMessages okEnv demoSession.email.subject
              demoSession.email.body_text demoSession.email.from_email
              (some (decisionTextOf ⟨"accept", none⟩)))]
          ++ evW
          ++ [Event.sendMessage "7" sendText,
              Event.n8nDispatch demoSession.email.from_email
                ("Re: " ++ demoSession.email.subject)
                dispatchBody demoSession.email.message_id] ∧
      (∀ e ∈ evR, isRetrievalEvent e = true) ∧
      (∀ e ∈ evW, isWriteBackEvent e = true) ∧ evW ≠ []) :=
  ⟨rfl, rfl, rfl,
   c1_compose_then_writeback_then_notify_then_dispatch okEnv "7" demoSession
     ⟨"accept", none⟩ rfl rfl rfl⟩

theorem hfd_ok_send (env : Env) (chat_id : String) (sess : Session) (d : Decision)
    (htel : env.telegramApi = true)
    (hok : (handle_final_decision env chat_id sess d).2 = .ok ()) :
    ∃ t, Event.sendMessage chat_id t ∈ (handle_final_decision env chat_id sess d).1 := by
  simp only [handle_final_decision] at hok ⊢
  cases hg : generate_reply env sess.email.subject sess.email.body_text
      sess.email.from_email (some (decisionTextOf d)) with
  | mk evs r =>
    cases r with
    | error e => simp [hg] at hok
    | ok reply =>
      simp only [hg]
      refine ⟨"Got it. I\x27m sending this reply:\n\n" ++ (reply ++ authNotice), ?_⟩
      simp [telegram_send_message, htel]

theorem finalizeBranch_ok_send (env : Env) (st : Store) (chat_id : String)
    (sess : Session) (nst : String) (d : Decision)
    (htel : env.telegramApi = true)
    (hok : (finalizeBranch env st chat_id sess nst d).2.2 = .ok ()) :
    ∃ t, Event.sendMessage chat_id t ∈ (finalizeBranch env st chat_id sess nst d).1 := by
  simp only [finalizeBranch] at hok ⊢
  cases hg : handle_final_decision env chat_id { sess with state := nst } d with
  | mk evs r =>
    cases r with
    | error e => simp [hg] at hok
    | ok u =>
      simp only [hg]
      have hok2 : (handle_final_decision env chat_id { sess with state := nst } d).2
          = .ok () := by rw [hg]
      obtain ⟨t, ht⟩ := hfd_ok_send env chat_id { sess with state := nst } d htel hok2
      rw [hg] at ht
      exact ⟨t, ht⟩

theorem finalizeBranch_ok_store (env : Env) (st : Store) (chat_id : String)
    (sess : Session) (nst : String) (d : Decision)
    (hok : (finalizeBranch env st chat_id sess nst d).2.2 = .ok ()) :
    sget (finalizeBranch env st chat_id sess nst d).2.1 chat_id = none := by
  simp only [finalizeBranch] at hok ⊢
  cases hg : handle_final_decision env chat_id { sess with state := nst } d with
  | mk evs r =>
    cases r with
    | error e => simp [hg] at hok
    | ok u =>
      simp only [hg]
      exact sget_sdel _ _

/-- C6: in state `awaiting_availability`, input containing "yes" (checked
before "no") moves to `awaiting_time` when the email has no proposed time
and finalizes with decision `accept` when one is present; input containing
"no" but not "yes" moves to `awaiting_reschedule_confirm` with no outbound
dispatch; input containing neither re-prompts with the store unchanged. -/
theorem c6_awaiting_availability_transitions (env : Env) (st : Store)
    (chat_id text_raw : String) (sess : Session)
    (hs : sget st chat_id = some sess)
    (hstate : sess.state = "awaiting_availability")
    (hstart : pyLower (pyStrip text_raw) ≠ "/start") :
    (pyIn "yes" (pyLower (pyStrip text_raw)) = true →
      (pyTruthyO sess.email.proposed_time = false →
        telegram_webhook env st chat_id text_raw
          = (telegram_send_message env chat_id "Great! What time are you available?",
             sput st chat_id { sess with state := "awaiting_time" }, .ok ())) ∧
      (pyTruthyO sess.email.proposed_time = true →
        telegram_webhook env st chat_id text_raw
          = finalizeBranch env st chat_id sess "finalizing_accept" ⟨"accept", none⟩)) ∧
    (pyIn "yes" (pyLower (pyStrip text_raw)) = false →
      pyIn "no" (pyLower (pyStrip text_raw)) = true →
      telegram_webhook env st chat_id text_raw
        = (telegram_send_message env chat_id
            "Okay, you\x27re not available. Should I ask to reschedule? (yes/no)",
           sput st chat_id { sess with state := "awaiting_reschedule_confirm" }, .ok ()) ∧
      (∀ e ∈ (telegram_webhook env st chat_id text_raw).1, isDispatchEvent e = false)) ∧
    (pyIn "yes" (pyLower (pyStrip text_raw)) = false →
      pyIn "no" (pyLower (pyStrip text_raw)) = false →
      telegram_webhook env st chat_id text_raw
        = (telegram_send_message env chat_id
            "Please reply \"yes\" if you are available, or \"no\" if you are not.",
           st, .ok ())) := by
  refine ⟨fun hyes => ⟨fun htime => ?_, fun htime => ?_⟩,
    fun hyes hno => ?_, fun hyes hno => ?_⟩
  · simp [telegram_webhook, hs, hstate, hstart, hyes, htime]
  · simp [telegram_webhook, hs, hstate, hstart, hyes, htime]
  · have heq : telegram_webhook env st chat_id text_raw
        = (telegram_send_message env chat_id
            "Okay, you\x27re not available. Should I ask to reschedule? (yes/no)",
           sput st chat_id { sess with state := "awaiting_reschedule_confirm" }, .ok ()) := by
      simp [telegram_webhook, hs, hstate, hstart, hyes, hno]
    refine ⟨heq, ?_⟩
    rw [heq]
    intro e he
    simp only [telegram_send_message] at he
    by_cases hta : env.telegramApi
    · simp [hta] at he
      subst he
      rfl
    · simp [hta] at he
  · simp [telegram_webhook, hs, hstate, hstart, hyes, hno]

/-- C6 witness at a concrete store and message. -/
theorem c6_witness :
    (sget [("7", demoSession)] "7" = some demoSession) ∧
    (demoSession.state = "awaiting_availability") ∧
    (pyLower (pyStrip "Yes I am") ≠ "/start") ∧
    (pyIn "yes" (pyLower (pyStrip "Yes I am")) = true →
      (pyTruthyO demoSession.email.proposed_time = false →
        telegram_webhook okEnv [("7", demoSession)] "7" "Yes I am"
          = (telegram_send_message okEnv "7" "Great! What time are you available?",
             sput [("7", demoSession)] "7" { demoSession with state := "awaiting_time" },
             .ok ())) ∧
      (pyTruthyO demoSession.email.proposed_time = true →
        telegram_webhook okEnv [("7", demoSession)] "7" "Yes I am"
          = finalizeBranch okEnv [("7", demoSession)] "7" demoSession "finalizing_accept"
              ⟨"accept", none⟩)) :=
  ⟨rfl, rfl, by decide,
   (c6_awaiting_availability_transitions okEnv [("7", demoSession)] "7" "Yes I am"
     demoSession rfl rfl (by decide)).1⟩

/-- C10: in states `awaiting_time` and `awaiting_reschedule_time`, the
webhook finalizes unconditionally with the raw message text stripped of
surrounding whitespace (original casing, not the lower-cased matching
text) as the time value — even for an empty or whitespace-only message. -/
theorem c10_time_states_finalize_raw_text (env : Env) (st : Store)
    (chat_id text_raw : String) (sess : Session)
    (hs : sget st chat_id = some sess)
    (hstart : pyLower (pyStrip text_raw) ≠ "/start") :
    (sess.state = "awaiting_time" →
      telegram_webhook env st chat_id text_raw
        = finalizeBranch env st chat_id sess "finalizing_accept"
            ⟨"accept_with_time", some (pyStrip text_raw)⟩) ∧
    (sess.state = "awaiting_reschedule_time" →
      telegram_webhook env st chat_id text_raw
        = finalizeBranch env st chat_id sess "finalizing_reschedule"
            ⟨"reschedule", some (pyStrip text_raw)⟩) := by
  constructor
  · intro hstate
    simp [telegram_webhook, hs, hstate, hstart]
  · intro hstate
    simp [telegram_webhook, hs, hstate, hstart]

/-- C10 witness: a whitespace-only operator message in `awaiting_time`
still finalizes, with the empty string as the time, and the healthy run
dispatches the outbound email rather than re-prompting. -/
theorem c10_witness :
    (sget [("7", demoSessionTime)] "7" = some demoSessionTime) ∧
    (pyLower (pyStrip "   ") ≠ "/start") ∧
    (pyStrip "   " = "") ∧
    (demoSessionTime.state = "awaiting_time" →
      telegram_webhook okEnv [("7", demoSessionTime)] "7" "   "
        = finalizeBranch okEnv [("7", demoSessionTime)] "7" demoSessionTime
            "finalizing_accept" ⟨"accept_with_time", some (pyStrip "   ")⟩) ∧
    (telegram_webhook okEnv [("7", demoSessionTime)] "7" "   ").1.any isDispatchEvent
      = true :=
  ⟨rfl, by decide, by decide,
   (c10_time_states_finalize_raw_text okEnv [("7", demoSessionTime)] "7" "   "
     demoSessionTime rfl (by decide)).1,
   by decide⟩

/-- C8: when the operator input triggers one of the four finalize branches
and the webhook run completes successfully, the session store no longer
contains the conversation identifier. -/
theorem c8_finalize_removes_session (env : Env) (st : Store)
    (chat_id text_raw : String) (sess : Session)
    (hs : sget st chat_id = some sess)
    (hstart : pyLower (pyStrip text_raw) ≠ "/start")
    (hfin : finalizeTriggered sess (pyLower (pyStrip text_raw)) = true)
    (hok : (telegram_webhook env st chat_id text_raw).2.2 = .ok ()) :
    sget (telegram_webhook env st chat_id text_raw).2.1 chat_id = none := by
  simp only [finalizeTriggered, Bool.or_eq_true, Bool.and_eq_true, beq_iff_eq,
    Bool.not_eq_true] at hfin
  rcases hfin with ((⟨⟨h1, h2⟩, h3⟩ | h1) | ⟨⟨h1, h2⟩, h3⟩) | h1
  · have heq : telegram_webhook env st chat_id text_raw
        = finalizeBranch env st chat_id sess "finalizing_accept" ⟨"accept", none⟩ := by
      simp [telegram_webhook, hs, h1, h2, h3, hstart]
    rw [heq] at hok ⊢
    exact finalizeBranch_ok_store env st chat_id sess _ _ hok
  · have heq : telegram_webhook env st chat_id text_raw
        = finalizeBranch env st chat_id sess "finalizing_accept"
            ⟨"accept_with_time", some (pyStrip text_raw)⟩ := by
      simp [telegram_webhook, hs, h1, hstart]
    rw [heq] at hok ⊢
    exact finalizeBranch_ok_store env st chat_id sess _ _ hok
  · have h2f : pyIn "yes" (pyLower (pyStrip text_raw)) = false := by simpa using h2
    have heq : telegram_webhook env st chat_id text_raw
        = finalizeBranch env st chat_id sess "finalizing_decline" ⟨"decline", none⟩ := by
      simp [telegram_webhook, hs, h1, h2f, h3, hstart]
    rw [heq] at hok ⊢
    exact finalizeBranch_ok_store env st chat_id sess _ _ hok
  · have heq : telegram_webhook env st chat_id text_raw
        = finalizeBranch env st chat_id sess "finalizing_reschedule"
            ⟨"reschedule", some (pyStrip text_raw)⟩ := by
      simp [telegram_webhook, hs, h1, hstart]
    rw [heq] at hok ⊢
    exact finalizeBranch_ok_store env st chat_id sess _ _ hok

/-- C8 witness: a successful finalize on a concrete store removes the
conversation identifier from the store. -/
theorem c8_witness :
    (sget [("7", demoSessionTime)] "7" = some demoSessionTime) ∧
    (pyLower (pyStrip "3pm") ≠ "/start") ∧
    (finalizeTriggered demoSessionTime (pyLower (pyStrip "3pm")) = true) ∧
    ((telegram_webhook okEnv [("7", demoSessionTime)] "7" "3pm").2.2 = .ok ()) ∧
    sget (telegram_webhook okEnv [("7", demoSessionTime)] "7" "3pm").2.1 "7" = none :=
  ⟨rfl, by decide, by decide, rfl,
   c8_finalize_removes_session okEnv [("7", demoSessionTime)] "7" "3pm" demoSessionTime
     rfl (by decide) (by decide) rfl⟩

/-- C2 counterexample: after a finalize aborted by a completion failure,
the session remains in the reachable state `finalizing_accept`; the next
well-formed operator message then completes successfully while sending no
chat response at all (the whole event trace is empty). -/
theorem c2_counterexample :
    sget (telegram_webhook failChatEnv
        (telegram_webhook failChatEnv
          (incoming_email failChatEnv [] payloadBob).2.1 "7" "yes").2.1
        "7" "3pm").2.1 "7"
      = some ⟨buildInEmail payloadBob, "finalizing_accept"⟩ ∧
    telegram_webhook okEnv (telegram_webhook failChatEnv
        (telegram_webhook failChatEnv
          (incoming_email failChatEnv [] payloadBob).2.1 "7" "yes").2.1
        "7" "3pm").2.1 "7" "hello"
      = ([], (telegram_webhook failChatEnv
          (telegram_webhook failChatEnv
            (incoming_email failChatEnv [] payloadBob).2.1 "7" "yes").2.1
          "7" "3pm").2.1, .ok ()) := by
  constructor
  · rfl
  · rfl

/-- C2 (amended): whenever the conversation has no active session or its
session is in one of the four awaiting states, and the webhook run
completes without error (with the Telegram transport configured), the
handler sends at least one chat response to the operator. -/
theorem c2_responds_when_awaiting (env : Env) (st : Store)
    (chat_id text_raw : String)
    (htel : env.telegramApi = true)
    (hstate : ∀ sess, sget st chat_id = some sess →
        sess.state = "awaiting_availability" ∨ sess.state = "awaiting_time" ∨
        sess.state = "awaiting_reschedule_confirm" ∨
        sess.state = "awaiting_reschedule_time")
    (hok : (telegram_webhook env st chat_id text_raw).2.2 = .ok ()) :
    ∃ t, Event.sendMessage chat_id t ∈ (telegram_webhook env st chat_id text_raw).1 := by
  by_cases hstart : pyLower (pyStrip text_raw) = "/start"
  · refine ⟨startReplyOf chat_id, ?_⟩
    simp [telegram_webhook, hstart, telegram_send_message, htel]
  · cases hsess : sget st chat_id with
    | none =>
      refine ⟨noActiveRequestText, ?_⟩
      simp [telegram_webhook, hstart, hsess, telegram_send_message, htel]
    | some sess =>
      rcases hstate sess hsess with h1 | h1 | h1 | h1
      · by_cases hyes : pyIn "yes" (pyLower (pyStrip text_raw)) = true
        · by_cases htime : pyTruthyO sess.email.proposed_time = true
          · have heq : telegram_webhook env st chat_id text_raw
                = finalizeBranch env st chat_id sess "finalizing_accept"
                    ⟨"accept", none⟩ := by
              simp [telegram_webhook, hsess, h1, hyes, htime, hstart]
            rw [heq] at hok ⊢
            exact finalizeBranch_ok_send env st chat_id sess _ _ htel hok
          · have htf : pyTruthyO sess.email.proposed_time = false :=
              Bool.not_eq_true _ ▸ Bool.eq_false_iff.mpr htime
            refine ⟨"Great! What time are you available?", ?_⟩
            simp [telegram_webhook, hsess, h1, hyes, htf, hstart,
              telegram_send_message, htel]
        · have hyf : pyIn "yes" (pyLower (pyStrip text_raw)) = false :=
            Bool.eq_false_iff.mpr hyes
          by_cases hno : pyIn "no" (pyLower (pyStrip text_raw)) = true
          · refine ⟨"Okay, you\x27re not available. Should I ask to reschedule? (yes/no)", ?_⟩
            simp [telegram_webhook, hsess, h1, hyf, hno, hstart,
              telegram_send_message, htel]
          · have hnf : pyIn "no" (pyLower (pyStrip text_raw)) = false :=
              Bool.eq_false_iff.mpr hno
            refine ⟨"Please reply \"yes\" if you are available, or \"no\" if you are not.", ?_⟩
            simp [telegram_webhook, hsess, h1, hyf, hnf, hstart,
              telegram_send_message, htel]
      · have heq : telegram_webhook env st chat_id text_raw
            = finalizeBranch env st chat_id sess "finalizing_accept"
                ⟨"accept_with_time", some (pyStrip text_raw)⟩ := by
          simp [telegram_webhook, hsess, h1, hstart]
        rw [heq] at hok ⊢
        exact finalizeBranch_ok_send env st chat_id sess _ _ htel hok
      · by_cases hyes : pyIn "yes" (pyLower (pyStrip text_raw)) = true
        · refine ⟨"What time would you like me to propose?", ?_⟩
          simp [telegram_webhook, hsess, h1, hyes, hstart,
            telegram_send_message, htel]
        · have hyf : pyIn "yes" (pyLower (pyStrip text_raw)) = false :=
            Bool.eq_false_iff.mpr hyes
          by_cases hno : pyIn "no" (pyLower (pyStrip text_raw)) = true
          · have heq : telegram_webhook env st chat_id text_raw
                = finalizeBranch env st chat_id sess "finalizing_decline"
                    ⟨"decline", none⟩ := by
              simp [telegram_webhook, hsess, h1, hyf, hno, hstart]
            rw [heq] at hok ⊢
            exact finalizeBranch_ok_send env st chat_id sess _ _ htel hok
          · have hnf : pyIn "no" (pyLower (pyStrip text_raw)) = false :=
              Bool.eq_false_iff.mpr hno
            refine ⟨"Please answer \"yes\" or \"no\".", ?_⟩
            simp [telegram_webhook, hsess, h1, hyf, hnf, hstart,
              telegram_send_message, htel]
      · have heq : telegram_webhook env st chat_id text_raw
            = finalizeBranch env st chat_id sess "finalizing_reschedule"
                ⟨"reschedule", some (pyStrip text_raw)⟩ := by
          simp [telegram_webhook, hsess, h1, hstart]
        rw [heq] at hok ⊢
        exact finalizeBranch_ok_send env st chat_id sess _ _ htel hok

/-- C2 witness at a concrete store and message. -/
theorem c2_witness :
    okEnv.telegramApi = true ∧
    (telegram_webhook okEnv [("7", demoSession)] "7" "maybe").2.2 = .ok () ∧
    (∃ t, Event.sendMessage "7" t
      ∈ (telegram_webhook okEnv [("7", demoSession)] "7" "maybe").1) :=
  ⟨rfl, rfl,
   c2_responds_when_awaiting okEnv [("7", demoSession)] "7" "maybe" rfl
     (fun sess h => by
       simp [sget, List.lookup] at h
       subst h
       exact Or.inl rfl) rfl⟩

/-- C7 counterexample: the inbound-email handler fills a missing sender
with the empty string, not with the claimed default "unknown". -/
theorem c7_counterexample :
    (buildInEmail emptyInPayload).from_email = "" ∧
    ¬ (buildInEmail emptyInPayload).from_email = "unknown" := by
  decide

/-- C7 (amended): an inbound event missing sender, subject, or body is not
rejected; subject and body are filled with the empty string at both
endpoints; the missing sender becomes "unknown" at the `/triage` endpoint
but the empty string in the stored `/incoming-email` event, which the
reply pipeline then normalizes to "unknown". -/
theorem c7_defaults_amended (env : Env) (st : Store) (p : InPayload)
    (q : TriagePayload) (cid : String)
    (hpf : p.from_email = none) (hpk : p.fromKey = none) (hps : p.subject = none)
    (hpb : p.body_text = none) (hpb2 : p.bodyKey = none)
    (hqf : q.from_email = none) (hqs : q.subject = none) (hqb : q.body_text = none)
    (hqd : q.decision = none)
    (hcid : env.ownerChatId = some cid) (hc2 : cid ≠ "") :
    (buildInEmail p).from_email = "" ∧ (buildInEmail p).subject = "" ∧
    (buildInEmail p).body_text = "" ∧
    (incoming_email env st p).2.2 = true ∧
    sget (incoming_email env st p).2.1 cid
      = some ⟨buildInEmail p, "awaiting_availability"⟩ ∧
    triage env q = generate_reply env "" "" "unknown" none ∧
    (∀ subject body dt, generate_reply env subject body "" dt
        = generate_reply env subject body "unknown" dt) := by
  refine ⟨?_, ?_, ?_, ?_, ?_, ?_, ?_⟩
  · simp [buildInEmail, hpf, hpk, pyOrO, pyOrS]
  · simp [buildInEmail, hps, pyOrS]
  · simp [buildInEmail, hpb, hpb2, pyOrO, pyOrS]
  · simp [incoming_email, hcid, hc2]
  · simp only [incoming_email, hcid]
    simp [hc2, sget_sput]
  · simp [triage, hqf, hqs, hqb, hqd, pyOrS]
  · intro subject body dt
    rfl

/-- C7 witness at the fully empty payloads. -/
theorem c7_witness :
    okEnv.ownerChatId = some "7" ∧
    ((buildInEmail emptyInPayload).from_email = "" ∧
     (buildInEmail emptyInPayload).subject = "" ∧
     (buildInEmail emptyInPayload).body_text = "" ∧
     (incoming_email okEnv [] emptyInPayload).2.2 = true ∧
     sget (incoming_email okEnv [] emptyInPayload).2.1 "7"
       = some ⟨buildInEmail emptyInPayload, "awaiting_availability"⟩ ∧
     triage okEnv emptyTriagePayload = generate_reply okEnv "" "" "unknown" none ∧
     (∀ subject body dt, generate_reply okEnv subject body "" dt
         = generate_reply okEnv subject body "unknown" dt)) :=
  ⟨rfl,
   c7_defaults_amended okEnv [] emptyInPayload emptyTriagePayload "7"
     rfl rfl rfl rfl rfl rfl rfl rfl rfl rfl (by decide)⟩

end InboxAI
